import Mathlib

/-!
Shallow embedding of the k6 load-testing harness of this repository
(`src/unnamed/part_001` — the comprehensive performance test,
`src/k6-performance-test.js` — the basic test, and
`src/k6-mqtt-pub-test.js` — the MQTT publish test), together with proofs of
the specification's claims about endpoint-coverage accounting, weighted
scenario dispatch, threshold evaluation and report synthesis.

Conventions of the embedding: JavaScript numbers that only ever hold integer
counts are `Nat`; durations and metric values are `ℚ` (every value produced
by `Date.now()` arithmetic and the summary divisions is rational);
`x?.y || 0` access paths become `Option ℚ` with `Option.getD 0`;
`toFixed(2)` is string formatting of an unchanged underlying value, so report
fields carry the value itself. Side-effecting k6 metric objects
(`Counter`, `Trend`, `Rate`) are fields of an explicit state record threaded
through the functions that mutate them.
-/

namespace RustApiPerf

/-- The seven declared endpoint keys, in the key order of the
`endpointCoverage` object literal (`src/unnamed/part_001` lines 15-23). -/
def kHealth : String := "GET /"

/-- Endpoint key `GET /user/users`. -/
def kGetUsers : String := "GET /user/users"

/-- Endpoint key `POST /user/users`. -/
def kPostUsers : String := "POST /user/users"

/-- Endpoint key `GET /user/users/:id`. -/
def kUserById : String := "GET /user/users/:id"

/-- Endpoint key `POST /mqtt/pub`. -/
def kMqttPub : String := "POST /mqtt/pub"

/-- Endpoint key `GET /mqtt/consume`. -/
def kMqttConsume : String := "GET /mqtt/consume"

/-- Endpoint key `POST /channel/pub`. -/
def kChannelPub : String := "POST /channel/pub"

/-- The closed set of declared endpoint keys (`Object.keys(endpointCoverage)`). -/
def declaredKeys : List String :=
  [kHealth, kGetUsers, kPostUsers, kUserById, kMqttPub, kMqttConsume, kChannelPub]

/-- One per-endpoint coverage record, the value type of the `endpointCoverage`
object (`src/unnamed/part_001` lines 15-23). -/
structure CoverageEntry where
  hits : Nat
  success : Nat
  errors : Nat
  totalResponseTime : ℚ
deriving Repr, DecidableEq

/-- The all-zero entry each declared key starts with. -/
def CoverageEntry.empty : CoverageEntry :=
  { hits := 0, success := 0, errors := 0, totalResponseTime := 0 }

/-- Harness state of `src/unnamed/part_001`: the `endpointCoverage` map plus the
custom k6 metrics declared at lines 8-12 (`endpoint_hits` Counter,
`endpoint_response_time` Trend as its sample list, `successful_requests` and
`failed_requests` Counters, and the `errors` Rate as its sample list). -/
structure CovState where
  coverage : String → CoverageEntry
  endpointHits : Nat
  endpointResponseTime : List ℚ
  successfulRequests : Nat
  failedRequests : Nat
  errorSamples : List ℚ

/-- State at script load: every declared entry zero, no metric samples. -/
def CovState.empty : CovState :=
  { coverage := fun _ => CoverageEntry.empty
    endpointHits := 0
    endpointResponseTime := []
    successfulRequests := 0
    failedRequests := 0
    errorSamples := [] }

/-- The in-place increments applied to one coverage entry by `trackEndpoint`
(`src/unnamed/part_001` lines 70-77). -/
def bumpEntry (e : CoverageEntry) (success : Bool) (responseTime : ℚ) : CoverageEntry :=
  { hits := e.hits + 1
    success := if success then e.success + 1 else e.success
    errors := if success then e.errors else e.errors + 1
    totalResponseTime := e.totalResponseTime + responseTime }

/-- The body of `if (endpointCoverage[endpoint]) { ... }` in `trackEndpoint`
(`src/unnamed/part_001` lines 69-79): when the key is declared, bump its entry
and the `successful_requests`/`failed_requests` counters; otherwise no-op. -/
def trackCore (st : CovState) (endpoint : String) (success : Bool) (responseTime : ℚ) :
    CovState :=
  if endpoint ∈ declaredKeys then
    { st with
      coverage := fun k =>
        if k = endpoint then bumpEntry (st.coverage k) success responseTime
        else st.coverage k
      successfulRequests :=
        if success then st.successfulRequests + 1 else st.successfulRequests
      failedRequests :=
        if success then st.failedRequests else st.failedRequests + 1 }
  else st

/-- `trackEndpoint(endpoint, success, responseTime)` of `src/unnamed/part_001`
lines 68-82: the guarded per-entry update of `trackCore`, then the
unconditional `endpointHits.add(1)` and `endpointResponseTime.add(responseTime)`. -/
def trackEndpoint (st : CovState) (endpoint : String) (success : Bool) (responseTime : ℚ) :
    CovState :=
  { trackCore st endpoint success responseTime with
    endpointHits := (trackCore st endpoint success responseTime).endpointHits + 1
    endpointResponseTime :=
      (trackCore st endpoint success responseTime).endpointResponseTime ++ [responseTime] }

/-- One recorded call to `trackEndpoint`. -/
structure TrackCall where
  endpoint : String
  success : Bool
  responseTime : ℚ

/-- Replay a sequence of `trackEndpoint` calls from the load-time state. -/
def applyCalls (calls : List TrackCall) : CovState :=
  calls.foldl (fun st c => trackEndpoint st c.endpoint c.success c.responseTime)
    CovState.empty

/-- The coverage-entry invariant of spec §3/§8: hits split exactly into
successes plus errors, and the accumulated latency is non-negative. -/
def EntryInv (e : CoverageEntry) : Prop :=
  e.hits = e.success + e.errors ∧ 0 ≤ e.totalResponseTime

-- Frame lemmas about trackEndpoint, shared by several claims.

theorem trackCore_endpointHits (st : CovState) (e : String) (s : Bool) (t : ℚ) :
    (trackCore st e s t).endpointHits = st.endpointHits := by
  unfold trackCore; split <;> rfl

theorem trackCore_endpointResponseTime (st : CovState) (e : String) (s : Bool) (t : ℚ) :
    (trackCore st e s t).endpointResponseTime = st.endpointResponseTime := by
  unfold trackCore; split <;> rfl

theorem trackCore_errorSamples (st : CovState) (e : String) (s : Bool) (t : ℚ) :
    (trackCore st e s t).errorSamples = st.errorSamples := by
  unfold trackCore; split <;> rfl

theorem trackEndpoint_coverage (st : CovState) (e : String) (s : Bool) (t : ℚ) :
    (trackEndpoint st e s t).coverage = (trackCore st e s t).coverage := rfl

theorem trackEndpoint_errorSamples (st : CovState) (e : String) (s : Bool) (t : ℚ) :
    (trackEndpoint st e s t).errorSamples = st.errorSamples := by
  unfold trackEndpoint; simp [trackCore_errorSamples]

theorem trackEndpoint_endpointHits (st : CovState) (e : String) (s : Bool) (t : ℚ) :
    (trackEndpoint st e s t).endpointHits = st.endpointHits + 1 := by
  unfold trackEndpoint; simp [trackCore_endpointHits]

theorem trackEndpoint_endpointResponseTime (st : CovState) (e : String) (s : Bool) (t : ℚ) :
    (trackEndpoint st e s t).endpointResponseTime = st.endpointResponseTime ++ [t] := by
  unfold trackEndpoint; simp [trackCore_endpointResponseTime]

theorem trackEndpoint_coverage_ne (st : CovState) {k e : String} (s : Bool) (t : ℚ)
    (h : k ≠ e) : (trackEndpoint st e s t).coverage k = st.coverage k := by
  rw [trackEndpoint_coverage]; unfold trackCore
  split <;> simp [h]

theorem trackEndpoint_coverage_self (st : CovState) {e : String} (s : Bool) (t : ℚ)
    (h : e ∈ declaredKeys) :
    (trackEndpoint st e s t).coverage e = bumpEntry (st.coverage e) s t := by
  rw [trackEndpoint_coverage]; unfold trackCore
  simp [h]

theorem trackEndpoint_undeclared (st : CovState) {e : String} (s : Bool) (t : ℚ)
    (h : e ∉ declaredKeys) :
    (trackEndpoint st e s t).coverage = st.coverage ∧
    (trackEndpoint st e s t).successfulRequests = st.successfulRequests ∧
    (trackEndpoint st e s t).failedRequests = st.failedRequests := by
  unfold trackEndpoint trackCore
  simp [h]

theorem bumpEntry_inv {e : CoverageEntry} (s : Bool) {t : ℚ} (ht : 0 ≤ t)
    (h : EntryInv e) : EntryInv (bumpEntry e s t) := by
  obtain ⟨h1, h2⟩ := h
  cases s <;>
    exact ⟨by simp [bumpEntry, h1]; omega, by simpa [bumpEntry] using add_nonneg h2 ht⟩

theorem trackEndpoint_inv (st : CovState) (e : String) (s : Bool) {t : ℚ} (ht : 0 ≤ t)
    (h : ∀ k, EntryInv (st.coverage k)) :
    ∀ k, EntryInv ((trackEndpoint st e s t).coverage k) := by
  intro k
  rw [trackEndpoint_coverage]
  unfold trackCore
  split
  · by_cases hk : k = e
    · simpa [hk] using bumpEntry_inv s ht (h e)
    · simpa [hk] using h k
  · exact h k

theorem foldl_track_inv (calls : List TrackCall) :
    ∀ st : CovState, (∀ c ∈ calls, 0 ≤ c.responseTime) →
      (∀ k, EntryInv (st.coverage k)) →
      ∀ k, EntryInv ((calls.foldl
        (fun st c => trackEndpoint st c.endpoint c.success c.responseTime) st).coverage k) := by
  induction calls with
  | nil => intro st _ h k; exact h k
  | cons c cs ih =>
    intro st hc h k
    exact ih _ (fun d hd => hc d (List.mem_cons_of_mem c hd))
      (trackEndpoint_inv st c.endpoint c.success (hc c (List.mem_cons_self c cs)) h) k

/-- C1: after any sequence of `trackEndpoint` calls with non-negative response
times, every coverage entry satisfies `hits = success + errors` with
non-negative accumulated latency (the `Nat` counters are non-negative by type);
and a call whose key is declared increments that key's `hits` by one and
exactly one of `success`/`errors` by one. -/
theorem trackEndpoint_coverage_invariant :
    (∀ calls : List TrackCall, (∀ c ∈ calls, 0 ≤ c.responseTime) →
      ∀ k, EntryInv ((applyCalls calls).coverage k)) ∧
    (∀ (st : CovState) (k : String) (s : Bool) (t : ℚ), k ∈ declaredKeys →
      ((trackEndpoint st k s t).coverage k).hits = (st.coverage k).hits + 1 ∧
      (s = true →
        ((trackEndpoint st k s t).coverage k).success = (st.coverage k).success + 1 ∧
        ((trackEndpoint st k s t).coverage k).errors = (st.coverage k).errors) ∧
      (s = false →
        ((trackEndpoint st k s t).coverage k).errors = (st.coverage k).errors + 1 ∧
        ((trackEndpoint st k s t).coverage k).success = (st.coverage k).success)) := by
  constructor
  · intro calls hc k
    exact foldl_track_inv calls CovState.empty hc
      (fun _ => ⟨rfl, le_refl 0⟩) k
  · intro st k s t hk
    rw [trackEndpoint_coverage_self st s t hk]
    cases s <;> simp [bumpEntry]

/-- C1 witness: the invariant and the increment facts at a concrete call. -/
theorem trackEndpoint_coverage_invariant_witness :
    EntryInv ((applyCalls [⟨kHealth, true, 5⟩, ⟨kGetUsers, false, 7⟩]).coverage kHealth) ∧
    ((trackEndpoint CovState.empty kHealth true 5).coverage kHealth).hits =
      (CovState.empty.coverage kHealth).hits + 1 :=
  ⟨trackEndpoint_coverage_invariant.1 [⟨kHealth, true, 5⟩, ⟨kGetUsers, false, 7⟩]
      (by intro c hc; fin_cases hc <;> norm_num) kHealth,
    (trackEndpoint_coverage_invariant.2 CovState.empty kHealth true 5 (by decide)).1⟩

/-! Report synthesis of `src/unnamed/part_001` `handleSummary` (lines 302-345). -/

/-- Fields `data.metrics.*` read by `handleSummary` of `src/unnamed/part_001`
(lines 309-311); `x?.y || 0` becomes `Option.getD 0`. -/
structure PerfSummaryData where
  iteration_duration_avg : Option ℚ
  iterations_count : Option ℚ
  vus_max_value : Option ℚ

/-- One entry of `coverageReport.endpointCoverage`
(`src/unnamed/part_001` lines 318-324); `successRate` and `avgResponseTime`
carry the numeric value whose `toFixed(2)` rendering the artifact shows. -/
structure EndpointReport where
  hits : Nat
  successRate : ℚ
  avgResponseTime : ℚ
  errors : Nat
  tested : Bool
deriving Repr, DecidableEq

/-- The per-endpoint report record built from one coverage entry
(`src/unnamed/part_001` lines 318-324). -/
def mkEndpointReport (e : CoverageEntry) : EndpointReport :=
  { hits := e.hits
    successRate := if 0 < e.hits then ((e.success : ℚ) / (e.hits : ℚ)) * 100 else 0
    avgResponseTime := if 0 < e.hits then e.totalResponseTime / (e.hits : ℚ) else 0
    errors := e.errors
    tested := decide (0 < e.hits) }

/-- `coverageReport.testInfo` (`src/unnamed/part_001` lines 307-312); the
`timestamp` is taken from the wall clock at invocation time. -/
structure PerfTestInfo where
  timestamp : String
  duration : ℚ
  iterations : ℚ
  vus : ℚ
deriving Repr, DecidableEq

/-- `coverageReport.summary` (`src/unnamed/part_001` lines 329-333). -/
structure CoverageSummary where
  totalEndpoints : Nat
  testedEndpoints : Nat
  coveragePercentage : ℚ
deriving Repr, DecidableEq

/-- The full `coverageReport` object that `handleSummary` serializes into
`reports/endpoint-coverage.json`. -/
structure CoverageReport where
  testInfo : PerfTestInfo
  endpointCoverage : List (String × EndpointReport)
  summary : CoverageSummary
deriving Repr, DecidableEq

/-- `handleSummary` of `src/unnamed/part_001` lines 302-345 (its coverage
report; the HTML/text artifacts render `data` through external library
functions). `now` is the `new Date().toISOString()` timestamp string. -/
def handleSummary (st : CovState) (d : PerfSummaryData) (now : String) : CoverageReport :=
  { testInfo :=
      { timestamp := now
        duration := d.iteration_duration_avg.getD 0
        iterations := d.iterations_count.getD 0
        vus := d.vus_max_value.getD 0 }
    endpointCoverage := declaredKeys.map (fun k => (k, mkEndpointReport (st.coverage k)))
    summary :=
      { totalEndpoints := declaredKeys.length
        testedEndpoints := (declaredKeys.filter (fun k => 0 < (st.coverage k).hits)).length
        coveragePercentage :=
          (((declaredKeys.filter (fun k => 0 < (st.coverage k).hits)).length : ℚ) /
            (declaredKeys.length : ℚ)) * 100 } }

/-- C2: `handleSummary` reports `coveragePercentage` as (declared endpoints with
hits > 0) / (all declared endpoints) * 100, and every declared endpoint with
zero hits still appears in `endpointCoverage` with `tested = false` and explicit
zero `successRate` and `avgResponseTime`. -/
theorem handleSummary_coverage :
    ∀ (st : CovState) (d : PerfSummaryData) (now : String),
      (handleSummary st d now).summary.coveragePercentage =
        (((declaredKeys.filter (fun k => 0 < (st.coverage k).hits)).length : ℚ) /
          (declaredKeys.length : ℚ)) * 100 ∧
      ∀ k ∈ declaredKeys, (st.coverage k).hits = 0 →
        ∃ r : EndpointReport,
          (k, r) ∈ (handleSummary st d now).endpointCoverage ∧
          r.tested = false ∧ r.successRate = 0 ∧ r.avgResponseTime = 0 := by
  intro st d now
  refine ⟨rfl, ?_⟩
  intro k hk h0
  refine ⟨mkEndpointReport (st.coverage k), ?_, ?_, ?_, ?_⟩
  · exact List.mem_map.mpr ⟨k, hk, rfl⟩
  · simp [mkEndpointReport, h0]
  · simp [mkEndpointReport, h0]
  · simp [mkEndpointReport, h0]

/-- C2 witness: at the load-time state, `GET /` has zero hits and appears in the
report untested, with zero rates, and the coverage percentage is 0. -/
theorem handleSummary_coverage_witness :
    (handleSummary CovState.empty ⟨none, none, none⟩ "t").summary.coveragePercentage =
      (((declaredKeys.filter
          (fun k => 0 < (CovState.empty.coverage k).hits)).length : ℚ) /
        (declaredKeys.length : ℚ)) * 100 ∧
    ∃ r : EndpointReport,
      (kHealth, r) ∈ (handleSummary CovState.empty ⟨none, none, none⟩ "t").endpointCoverage ∧
      r.tested = false ∧ r.successRate = 0 ∧ r.avgResponseTime = 0 :=
  ⟨(handleSummary_coverage CovState.empty ⟨none, none, none⟩ "t").1,
    (handleSummary_coverage CovState.empty ⟨none, none, none⟩ "t").2 kHealth
      (by decide) rfl⟩

/-- Sum of the per-endpoint `hits` counters over the declared keys. -/
def sumDeclaredHits (st : CovState) : Nat :=
  (declaredKeys.map (fun k => (st.coverage k).hits)).sum

/-- An endpoint key outside the declared set, used to exhibit divergence of the
global counter from the per-endpoint sum. -/
def strayKey : String := "DELETE /user/users"

/-- C9: a `trackEndpoint` call with an undeclared key leaves every coverage
entry and the success/failure counters unchanged, yet still increments the
global `endpoint_hits` counter and appends to the `endpoint_response_time`
trend — so the global hit count can strictly exceed the sum of per-endpoint
hits, as it does after one stray call from the load-time state. -/
theorem trackEndpoint_undeclared_frame :
    (∀ (st : CovState) (k : String) (s : Bool) (t : ℚ), k ∉ declaredKeys →
      (trackEndpoint st k s t).coverage = st.coverage ∧
      (trackEndpoint st k s t).successfulRequests = st.successfulRequests ∧
      (trackEndpoint st k s t).failedRequests = st.failedRequests ∧
      (trackEndpoint st k s t).endpointHits = st.endpointHits + 1 ∧
      (trackEndpoint st k s t).endpointResponseTime = st.endpointResponseTime ++ [t]) ∧
    sumDeclaredHits (trackEndpoint CovState.empty strayKey true 12) <
      (trackEndpoint CovState.empty strayKey true 12).endpointHits := by
  constructor
  · intro st k s t hk
    obtain ⟨h1, h2, h3⟩ := trackEndpoint_undeclared st s t hk
    exact ⟨h1, h2, h3, trackEndpoint_endpointHits st k s t,
      trackEndpoint_endpointResponseTime st k s t⟩
  · decide

/-- C9 witness: the frame property at a concrete undeclared key and state. -/
theorem trackEndpoint_undeclared_frame_witness :
    (trackEndpoint CovState.empty strayKey true 12).coverage = CovState.empty.coverage ∧
    (trackEndpoint CovState.empty strayKey true 12).endpointHits =
      CovState.empty.endpointHits + 1 :=
  ⟨(trackEndpoint_undeclared_frame.1 CovState.empty strayKey true 12 (by decide)).1,
    (trackEndpoint_undeclared_frame.1 CovState.empty strayKey true 12 (by decide)).2.2.2.1⟩

/-! Weighted scenario dispatch (`src/unnamed/part_001` lines 102-120 and
`src/k6-performance-test.js` lines 50-68). -/

/-- The four scenario groups both dispatchers choose between. -/
inductive Scenario where
  | health
  | user
  | mqtt
  | channel
deriving Repr, DecidableEq

/-- All scenarios, in branch order. -/
def allScenarios : List Scenario := [.health, .user, .mqtt, .channel]

/-- The threshold-based branching of the comprehensive test's `default`
function (`src/unnamed/part_001` lines 102-117) on the `Math.random()` draw. -/
def dispatchComprehensive (r : ℚ) : Scenario :=
  if r < 25/100 then .health
  else if r < 50/100 then .user
  else if r < 75/100 then .mqtt
  else .channel

/-- The threshold-based branching of the basic test's `default` function
(`src/k6-performance-test.js` lines 50-65). -/
def dispatchBasic (r : ℚ) : Scenario :=
  if r < 30/100 then .health
  else if r < 60/100 then .user
  else if r < 80/100 then .mqtt
  else .channel

/-- Declared weights of the comprehensive test (25% per scenario group,
comments at `src/unnamed/part_001` lines 105-115). -/
def weightComprehensive : Scenario → ℚ := fun _ => 25

/-- Declared weights of the basic test (30/30/20/20, comments at
`src/k6-performance-test.js` lines 53-63). -/
def weightBasic : Scenario → ℚ
  | .health => 30
  | .user => 30
  | .mqtt => 20
  | .channel => 20

/-- Lower end of the comprehensive dispatcher's selection interval. -/
def loComprehensive : Scenario → ℚ
  | .health => 0
  | .user => 25/100
  | .mqtt => 50/100
  | .channel => 75/100

/-- Upper end of the comprehensive dispatcher's selection interval. -/
def hiComprehensive : Scenario → ℚ
  | .health => 25/100
  | .user => 50/100
  | .mqtt => 75/100
  | .channel => 1

/-- Lower end of the basic dispatcher's selection interval. -/
def loBasic : Scenario → ℚ
  | .health => 0
  | .user => 30/100
  | .mqtt => 60/100
  | .channel => 80/100

/-- Upper end of the basic dispatcher's selection interval. -/
def hiBasic : Scenario → ℚ
  | .health => 30/100
  | .user => 60/100
  | .mqtt => 80/100
  | .channel => 1

/-- C3: for a draw `r` in `[0,1)`, each dispatcher selects scenario `s` exactly
on a half-open subinterval whose length — its share of the uniform measure on
`[0,1)` — equals the scenario's declared weight divided by the total weight:
1/4 per group in the comprehensive test and 30/30/20/20 percent in the basic
test. -/
theorem dispatch_realizes_weights :
    ∀ (s : Scenario) (r : ℚ), 0 ≤ r → r < 1 →
      ((dispatchComprehensive r = s ↔ loComprehensive s ≤ r ∧ r < hiComprehensive s) ∧
       (dispatchBasic r = s ↔ loBasic s ≤ r ∧ r < hiBasic s)) ∧
      (hiComprehensive s - loComprehensive s =
        weightComprehensive s / (allScenarios.map weightComprehensive).sum ∧
       hiBasic s - loBasic s =
        weightBasic s / (allScenarios.map weightBasic).sum) := by
  intro s r h0 h1
  refine ⟨⟨?_, ?_⟩, ?_⟩
  · cases s <;>
      simp only [dispatchComprehensive, loComprehensive, hiComprehensive] <;>
      split_ifs with ha hb hc <;>
      constructor <;> intro h <;>
      first
        | exact ⟨by linarith, by linarith⟩
        | rfl
        | exact absurd h (by decide)
        | (obtain ⟨hx, hy⟩ := h; exfalso; linarith)
  · cases s <;>
      simp only [dispatchBasic, loBasic, hiBasic] <;>
      split_ifs with ha hb hc <;>
      constructor <;> intro h <;>
      first
        | exact ⟨by linarith, by linarith⟩
        | rfl
        | exact absurd h (by decide)
        | (obtain ⟨hx, hy⟩ := h; exfalso; linarith)
  · cases s <;> constructor <;> norm_num [allScenarios, weightComprehensive, weightBasic,
      loComprehensive, hiComprehensive, loBasic, hiBasic]

/-- C3 witness: a concrete draw in the `user` band of both dispatchers. -/
theorem dispatch_realizes_weights_witness :
    (dispatchComprehensive (40/100) = .user ↔
      loComprehensive .user ≤ 40/100 ∧ (40/100 : ℚ) < hiComprehensive .user) ∧
    hiBasic .user - loBasic .user = weightBasic .user / (allScenarios.map weightBasic).sum :=
  ⟨((dispatch_realizes_weights .user (40/100) (by norm_num) (by norm_num)).1).1,
    ((dispatch_realizes_weights .user (40/100) (by norm_num) (by norm_num)).2).2⟩

/-! Scenario execution functions of `src/unnamed/part_001` (lines 122-262).
Each HTTP step is abstracted by its observable outcome: the combined result of
its `check` predicates and the measured `Date.now()` response time. -/

/-- Observable outcome of one HTTP step: the conjunction of its `check`
predicates and the measured response time in milliseconds. -/
structure StepOutcome where
  success : Bool
  responseTime : ℚ
deriving Repr, DecidableEq

/-- `errorRate.add(1)` — appending the sample value 1 to the `errors` Rate. -/
def addErrorSample (st : CovState) : CovState :=
  { st with errorSamples := st.errorSamples ++ [1] }

/-- `testHealthCheck` (`src/unnamed/part_001` lines 122-140): one tracked step
against `GET /`; on check failure, `errorRate.add(1)`. -/
def testHealthCheck (st : CovState) (o : StepOutcome) : CovState :=
  let st1 := trackEndpoint st kHealth o.success o.responseTime
  if o.success then st1 else addErrorSample st1

/-- `testUserOperations` (`src/unnamed/part_001` lines 142-195): three dependent
steps — `GET /user/users`, `POST /user/users`, `GET /user/users/:id` — where a
failed step records an error sample and aborts the rest of the iteration (the
third step records no error sample). Besides the final state it returns the
ordered list of endpoints passed to `trackEndpoint`, one per attempted step. -/
def testUserOperations (st : CovState) (o1 o2 o3 : StepOutcome) :
    CovState × List String :=
  let st1 := trackEndpoint st kGetUsers o1.success o1.responseTime
  if o1.success = false then (addErrorSample st1, [kGetUsers])
  else
    let st2 := trackEndpoint st1 kPostUsers o2.success o2.responseTime
    if o2.success = false then (addErrorSample st2, [kGetUsers, kPostUsers])
    else
      let st3 := trackEndpoint st2 kUserById o3.success o3.responseTime
      (st3, [kGetUsers, kPostUsers, kUserById])

/-- `testMqttOperations` (`src/unnamed/part_001` lines 197-235): `POST /mqtt/pub`
then, unless the first step failed, `GET /mqtt/consume`; each failed step
records an error sample. -/
def testMqttOperations (st : CovState) (o1 o2 : StepOutcome) : CovState :=
  let st1 := trackEndpoint st kMqttPub o1.success o1.responseTime
  if o1.success = false then addErrorSample st1
  else
    let st2 := trackEndpoint st1 kMqttConsume o2.success o2.responseTime
    if o2.success = false then addErrorSample st2 else st2

/-- `testChannelOperations` (`src/unnamed/part_001` lines 237-262): one tracked
step against `POST /channel/pub`; on check failure, `errorRate.add(1)`. -/
def testChannelOperations (st : CovState) (o : StepOutcome) : CovState :=
  let st1 := trackEndpoint st kChannelPub o.success o.responseTime
  if o.success then st1 else addErrorSample st1

/-- C4: in `testUserOperations`, a failed step ends the iteration — later
steps are not attempted (they are absent from the tracking trace) and their
coverage entries are not mutated — while every attempted step, failed or not,
contributes exactly one `trackEndpoint` record, incrementing its endpoint's
`hits` by exactly one. -/
theorem trackG_covP (st : CovState) (s : Bool) (t : ℚ) :
    (trackEndpoint st kGetUsers s t).coverage kPostUsers = st.coverage kPostUsers :=
  trackEndpoint_coverage_ne st s t (by decide)

theorem trackG_covI (st : CovState) (s : Bool) (t : ℚ) :
    (trackEndpoint st kGetUsers s t).coverage kUserById = st.coverage kUserById :=
  trackEndpoint_coverage_ne st s t (by decide)

theorem trackP_covG (st : CovState) (s : Bool) (t : ℚ) :
    (trackEndpoint st kPostUsers s t).coverage kGetUsers = st.coverage kGetUsers :=
  trackEndpoint_coverage_ne st s t (by decide)

theorem trackP_covI (st : CovState) (s : Bool) (t : ℚ) :
    (trackEndpoint st kPostUsers s t).coverage kUserById = st.coverage kUserById :=
  trackEndpoint_coverage_ne st s t (by decide)

theorem trackI_covG (st : CovState) (s : Bool) (t : ℚ) :
    (trackEndpoint st kUserById s t).coverage kGetUsers = st.coverage kGetUsers :=
  trackEndpoint_coverage_ne st s t (by decide)

theorem trackI_covP (st : CovState) (s : Bool) (t : ℚ) :
    (trackEndpoint st kUserById s t).coverage kPostUsers = st.coverage kPostUsers :=
  trackEndpoint_coverage_ne st s t (by decide)

theorem trackG_covG (st : CovState) (s : Bool) (t : ℚ) :
    (trackEndpoint st kGetUsers s t).coverage kGetUsers = bumpEntry (st.coverage kGetUsers) s t :=
  trackEndpoint_coverage_self st s t (by decide)

theorem trackP_covP (st : CovState) (s : Bool) (t : ℚ) :
    (trackEndpoint st kPostUsers s t).coverage kPostUsers = bumpEntry (st.coverage kPostUsers) s t :=
  trackEndpoint_coverage_self st s t (by decide)

theorem trackI_covI (st : CovState) (s : Bool) (t : ℚ) :
    (trackEndpoint st kUserById s t).coverage kUserById = bumpEntry (st.coverage kUserById) s t :=
  trackEndpoint_coverage_self st s t (by decide)

theorem testUserOperations_short_circuit :
    ∀ (st : CovState) (o1 o2 o3 : StepOutcome),
      (o1.success = false →
        (testUserOperations st o1 o2 o3).2 = [kGetUsers] ∧
        (testUserOperations st o1 o2 o3).1.coverage kPostUsers = st.coverage kPostUsers ∧
        (testUserOperations st o1 o2 o3).1.coverage kUserById = st.coverage kUserById ∧
        ((testUserOperations st o1 o2 o3).1.coverage kGetUsers).hits =
          (st.coverage kGetUsers).hits + 1) ∧
      (o1.success = true → o2.success = false →
        (testUserOperations st o1 o2 o3).2 = [kGetUsers, kPostUsers] ∧
        (testUserOperations st o1 o2 o3).1.coverage kUserById = st.coverage kUserById ∧
        ((testUserOperations st o1 o2 o3).1.coverage kGetUsers).hits =
          (st.coverage kGetUsers).hits + 1 ∧
        ((testUserOperations st o1 o2 o3).1.coverage kPostUsers).hits =
          (st.coverage kPostUsers).hits + 1) ∧
      (o1.success = true → o2.success = true →
        (testUserOperations st o1 o2 o3).2 = [kGetUsers, kPostUsers, kUserById] ∧
        ((testUserOperations st o1 o2 o3).1.coverage kGetUsers).hits =
          (st.coverage kGetUsers).hits + 1 ∧
        ((testUserOperations st o1 o2 o3).1.coverage kPostUsers).hits =
          (st.coverage kPostUsers).hits + 1 ∧
        ((testUserOperations st o1 o2 o3).1.coverage kUserById).hits =
          (st.coverage kUserById).hits + 1) := by
  intro st o1 o2 o3
  obtain ⟨s1, t1⟩ := o1
  obtain ⟨s2, t2⟩ := o2
  obtain ⟨s3, t3⟩ := o3
  cases s1 <;> cases s2 <;>
    simp [testUserOperations, addErrorSample, trackG_covP, trackG_covI, trackP_covG,
      trackP_covI, trackI_covG, trackI_covP, trackG_covG, trackP_covP, trackI_covI, bumpEntry]

/-- C4 witness: a first-step failure at the load-time state tracks only
`GET /user/users` and leaves the later endpoints' entries untouched. -/
theorem testUserOperations_short_circuit_witness :
    (testUserOperations CovState.empty ⟨false, 9⟩ ⟨true, 1⟩ ⟨true, 1⟩).2 = [kGetUsers] ∧
    (testUserOperations CovState.empty ⟨false, 9⟩ ⟨true, 1⟩ ⟨true, 1⟩).1.coverage kPostUsers =
      CovState.empty.coverage kPostUsers :=
  ⟨((testUserOperations_short_circuit CovState.empty ⟨false, 9⟩ ⟨true, 1⟩ ⟨true, 1⟩).1 rfl).1,
    ((testUserOperations_short_circuit CovState.empty ⟨false, 9⟩ ⟨true, 1⟩ ⟨true, 1⟩).1 rfl).2.1⟩

/-! Whole-run model: `setup` (reachability check), the `default` iteration
function, and the run as setup followed by a sequence of iterations. -/

/-- The object returned by `setup` on success
(`src/k6-performance-test.js` line 47; `src/unnamed/part_001` lines 95-99 and
`src/k6-mqtt-pub-test.js` line 67 add timing/endpoint data to it). -/
structure SetupData where
  serverReady : Bool
deriving Repr, DecidableEq

/-- `setup()` of `src/k6-performance-test.js` lines 40-48 (identically in
`src/unnamed/part_001` lines 84-100 and `src/k6-mqtt-pub-test.js` lines 57-68):
`GET` on the base URL; any status other than 200 throws
`Server is not responding correctly`. `status` is the observed HTTP status. -/
def setup (status : Nat) : Except String SetupData :=
  if status = 200 then Except.ok { serverReady := true }
  else Except.error "Server is not responding correctly"

/-- The observable inputs of one virtual-user iteration: the `Math.random()`
scenario draw and the outcomes of the (at most three) steps the chosen
scenario can attempt. -/
structure Iteration where
  r : ℚ
  o1 : StepOutcome
  o2 : StepOutcome
  o3 : StepOutcome
deriving Repr, DecidableEq

/-- The comprehensive test's `default` function (`src/unnamed/part_001`
lines 102-120): dispatch on the draw and run the chosen scenario. -/
def runOneIteration (st : CovState) (it : Iteration) : CovState :=
  match dispatchComprehensive it.r with
  | .health => testHealthCheck st it.o1
  | .user => (testUserOperations st it.o1 it.o2 it.o3).1
  | .mqtt => testMqttOperations st it.o1 it.o2
  | .channel => testChannelOperations st it.o1

/-- The load phase of the comprehensive test: iterations applied in sequence
to the load-time state. -/
def runIterations (its : List Iteration) : CovState :=
  its.foldl runOneIteration CovState.empty

/-- A whole run of the comprehensive test: the `setup` reachability check,
then the load iterations. A `setup` throw aborts the run before any
iteration executes, so no state is produced. -/
def runTest (status : Nat) (its : List Iteration) : Except String CovState :=
  match setup status with
  | Except.error e => Except.error e
  | Except.ok _ => Except.ok (runIterations its)

/-- C8: a non-200 reachability response makes `setup` throw and the run abort
before any load iteration: the result is the error, independent of the
iterations that would have followed, and no coverage state is produced. -/
theorem setup_non200_aborts :
    ∀ (status : Nat) (its : List Iteration), status ≠ 200 →
      runTest status its = Except.error "Server is not responding correctly" ∧
      runTest status its = runTest status [] ∧
      ∀ st : CovState, runTest status its ≠ Except.ok st := by
  intro status its h
  refine ⟨?_, ?_, ?_⟩ <;> simp [runTest, setup, h]

/-- C8 witness: a 500 response aborts the run even with an iteration queued. -/
theorem setup_non200_aborts_witness :
    runTest 500 [⟨0, ⟨true, 1⟩, ⟨true, 1⟩, ⟨true, 1⟩⟩] =
      Except.error "Server is not responding correctly" :=
  (setup_non200_aborts 500 [⟨0, ⟨true, 1⟩, ⟨true, 1⟩, ⟨true, 1⟩⟩] (by decide)).1

/-! The `errors` Rate metric (C10). Both test scripts declare
`errors: ['rate<0.05']` and touch the metric only through `errorRate.add(1)`
on a failed check (`src/unnamed/part_001` lines 35, 138, 158, 179, 215, 233,
260; `src/k6-performance-test.js` lines 21, 80, 93, 109, 133, 144, 165). -/

/-- The error samples one iteration of the basic test
(`src/k6-performance-test.js` lines 50-68) adds: its scenario functions have
the same `errorRate.add(1)` call sites as the comprehensive ones but no
coverage tracking. -/
def basicIterErrors (it : Iteration) : List ℚ :=
  match dispatchBasic it.r with
  | .health => if it.o1.success then [] else [1]
  | .user =>
      if it.o1.success = false then [1]
      else if it.o2.success = false then [1] else []
  | .mqtt =>
      if it.o1.success = false then [1]
      else if it.o2.success = false then [1] else []
  | .channel => if it.o1.success then [] else [1]

/-- All error samples of a basic-test run. -/
def basicRunErrors (its : List Iteration) : List ℚ :=
  (its.map basicIterErrors).flatten

/-- The value of a k6 `Rate` metric: mean of its samples (0 when empty). -/
def rateOf (l : List ℚ) : ℚ :=
  l.sum / (l.length : ℚ)

theorem testHealthCheck_errorSamples_sub (st : CovState) (o : StepOutcome) :
    (testHealthCheck st o).errorSamples = st.errorSamples ∨
    (testHealthCheck st o).errorSamples = st.errorSamples ++ [1] := by
  unfold testHealthCheck
  split <;> simp [addErrorSample, trackEndpoint_errorSamples]

theorem testUserOperations_errorSamples_sub (st : CovState) (o1 o2 o3 : StepOutcome) :
    (testUserOperations st o1 o2 o3).1.errorSamples = st.errorSamples ∨
    (testUserOperations st o1 o2 o3).1.errorSamples = st.errorSamples ++ [1] := by
  unfold testUserOperations
  split
  · right; simp [addErrorSample, trackEndpoint_errorSamples]
  · split
    · right; simp [addErrorSample, trackEndpoint_errorSamples]
    · left; simp [trackEndpoint_errorSamples]

theorem testMqttOperations_errorSamples_sub (st : CovState) (o1 o2 : StepOutcome) :
    (testMqttOperations st o1 o2).errorSamples = st.errorSamples ∨
    (testMqttOperations st o1 o2).errorSamples = st.errorSamples ++ [1] := by
  unfold testMqttOperations
  split
  · right; simp [addErrorSample, trackEndpoint_errorSamples]
  · split
    · right; simp [addErrorSample, trackEndpoint_errorSamples]
    · left; simp [trackEndpoint_errorSamples]

theorem testChannelOperations_errorSamples_sub (st : CovState) (o : StepOutcome) :
    (testChannelOperations st o).errorSamples = st.errorSamples ∨
    (testChannelOperations st o).errorSamples = st.errorSamples ++ [1] := by
  unfold testChannelOperations
  split <;> simp [addErrorSample, trackEndpoint_errorSamples]

theorem runOneIteration_errorSamples_ones (st : CovState) (it : Iteration)
    (h : ∀ x ∈ st.errorSamples, x = 1) :
    ∀ x ∈ (runOneIteration st it).errorSamples, x = 1 := by
  unfold runOneIteration
  have handle : ∀ l : List ℚ, (l = st.errorSamples ∨ l = st.errorSamples ++ [1]) →
      ∀ x ∈ l, x = 1 := by
    rintro l (rfl | rfl) x hx
    · exact h x hx
    · rcases List.mem_append.mp hx with hx' | hx'
      · exact h x hx'
      · simpa using hx'
  cases dispatchComprehensive it.r
  · exact handle _ (testHealthCheck_errorSamples_sub st it.o1)
  · exact handle _ (testUserOperations_errorSamples_sub st it.o1 it.o2 it.o3)
  · exact handle _ (testMqttOperations_errorSamples_sub st it.o1 it.o2)
  · exact handle _ (testChannelOperations_errorSamples_sub st it.o1)

theorem foldl_iterations_errorSamples_ones (its : List Iteration) :
    ∀ st : CovState, (∀ x ∈ st.errorSamples, x = 1) →
      ∀ x ∈ (its.foldl runOneIteration st).errorSamples, x = 1 := by
  induction its with
  | nil => intro st h; exact h
  | cons it its ih =>
    intro st h
    exact ih _ (runOneIteration_errorSamples_ones st it h)

theorem all_ones_sum (l : List ℚ) (h : ∀ x ∈ l, x = 1) : l.sum = (l.length : ℚ) := by
  induction l with
  | nil => simp
  | cons a l ih =>
    have ha : a = 1 := h a (List.mem_cons_self a l)
    have := ih (fun x hx => h x (List.mem_cons_of_mem a hx))
    simp [ha, this]
    ring

theorem all_ones_rate {l : List ℚ} (hne : l ≠ []) (h : ∀ x ∈ l, x = 1) :
    rateOf l = 1 := by
  have hlen : (l.length : ℚ) ≠ 0 := by
    have h0 : l.length ≠ 0 := fun h => hne (List.length_eq_zero.mp h)
    exact_mod_cast h0
  rw [rateOf, all_ones_sum l h, div_self hlen]

/-- C10: both scripts only ever add the sample 1 to the `errors` Rate — so
every recorded sample is 1, any execution with at least one error sample has
`rate(errors) = 1`, and the declared threshold `errors: rate<0.05` can pass
only when no error sample was recorded, i.e. no check failure occurred at any
`errorRate.add(1)` call site. -/
theorem errors_rate_all_or_nothing :
    ∀ its : List Iteration,
      (∀ x ∈ (runIterations its).errorSamples, x = 1) ∧
      (∀ x ∈ basicRunErrors its, x = 1) ∧
      ((runIterations its).errorSamples ≠ [] →
        rateOf (runIterations its).errorSamples = 1) ∧
      (rateOf (runIterations its).errorSamples < 5/100 →
        (runIterations its).errorSamples = []) ∧
      (basicRunErrors its ≠ [] → rateOf (basicRunErrors its) = 1) := by
  intro its
  have hcomp : ∀ x ∈ (runIterations its).errorSamples, x = 1 :=
    foldl_iterations_errorSamples_ones its CovState.empty (by simp [CovState.empty])
  have hbasic : ∀ x ∈ basicRunErrors its, x = 1 := by
    intro x hx
    rw [basicRunErrors, List.mem_flatten] at hx
    obtain ⟨l, hl, hxl⟩ := hx
    obtain ⟨it, _, rfl⟩ := List.mem_map.mp hl
    unfold basicIterErrors at hxl
    rcases dispatchBasic it.r <;> revert hxl <;> split <;> try split
    all_goals simp_all
  refine ⟨hcomp, hbasic, fun hne => all_ones_rate hne hcomp, ?_,
    fun hne => all_ones_rate hne hbasic⟩
  intro hlt
  by_contra hne
  rw [all_ones_rate hne hcomp] at hlt
  norm_num at hlt

/-- C10 witness: one failed health check yields the single sample 1 and an
error rate of exactly 1. -/
theorem errors_rate_all_or_nothing_witness :
    rateOf (runIterations [⟨0, ⟨false, 5⟩, ⟨true, 1⟩, ⟨true, 1⟩⟩]).errorSamples = 1 :=
  (errors_rate_all_or_nothing [⟨0, ⟨false, 5⟩, ⟨true, 1⟩, ⟨true, 1⟩⟩]).2.2.1
    (by norm_num [runIterations, runOneIteration, dispatchComprehensive, testHealthCheck,
      addErrorSample, trackEndpoint_errorSamples])

/-! Report synthesis of `src/k6-mqtt-pub-test.js` `handleSummary`
(lines 113-394) and the test's declared thresholds (lines 19-23). -/

/-- Fields of the k6 end-of-test summary `data` read by the MQTT test's
`handleSummary` (lines 119-160), plus the aggregated values of the custom
`mqtt_publish_response_time` Trend that the declared thresholds (lines 19-23)
are evaluated against. Absent metrics are `none`. -/
structure SummaryData where
  http_reqs_count : Option ℚ
  http_req_failed_count : Option ℚ
  http_req_duration_avg : Option ℚ
  http_req_duration_min : Option ℚ
  http_req_duration_max : Option ℚ
  http_req_duration_p50 : Option ℚ
  http_req_duration_p90 : Option ℚ
  http_req_duration_p95 : Option ℚ
  http_req_duration_p99 : Option ℚ
  data_received_count : Option ℚ
  data_sent_count : Option ℚ
  iterations_count : Option ℚ
  vus_max : Option ℚ
  testRunDurationMs : ℚ
  mqtt_publish_response_time_p95 : Option ℚ
  mqtt_publish_response_time_p99 : Option ℚ
deriving Repr, DecidableEq

/-- `performanceData.testInfo` (lines 125-136). `timestamp` and `testDate`
come from the wall clock at invocation time. -/
structure MqttTestInfo where
  timestamp : String
  testDate : String
  duration : ℚ
  iterations : ℚ
  maxVus : ℚ
  totalRequests : ℚ
  successfulRequests : ℚ
  failedRequests : ℚ
  successRate : ℚ
deriving Repr, DecidableEq

/-- `performanceData.metrics.responseTime` (lines 138-146): the displayed
response-time distribution, all read from `http_req_duration` with missing
values defaulted to 0 by `?.toFixed(2) || 0`. -/
structure MqttResponseTime where
  avg : ℚ
  rtMin : ℚ
  rtMax : ℚ
  p50 : ℚ
  p90 : ℚ
  p95 : ℚ
  p99 : ℚ
deriving Repr, DecidableEq

/-- `performanceData.metrics` (lines 137-155). `errorRatePct` is `none` for the
`NaN` that `(httpReqFailed / httpReqs) * 100` produces when `httpReqs = 0`. -/
structure MqttMetrics where
  responseTime : MqttResponseTime
  dataReceivedKB : Option ℚ
  dataSentKB : Option ℚ
  errorRatePct : Option ℚ
  errorCount : ℚ
deriving Repr, DecidableEq

/-- `performanceData.thresholds` (lines 156-160): the pass/fail booleans shown
in the report's Threshold Results block; a JavaScript comparison against
`undefined` or `NaN` is false, so an absent metric yields `false`. -/
structure MqttThresholds where
  p95_under_1000ms : Bool
  p99_under_2000ms : Bool
  error_rate_under_10pct : Bool
deriving Repr, DecidableEq

/-- The `performanceData` object of the MQTT test's `handleSummary`, embedded
into every artifact it returns (the HTML report, the `-data.json` file and the
stdout summary). -/
structure MqttPerformanceData where
  testInfo : MqttTestInfo
  metrics : MqttMetrics
  thresholds : MqttThresholds
deriving Repr, DecidableEq

/-- `handleSummary` of `src/k6-mqtt-pub-test.js` lines 113-161: the computation
of `performanceData` from the summary `data` (`timestamp`/`testDate` are the
wall-clock strings of lines 114-115; the HTML/JSON/stdout artifacts are
renderings of this object). -/
def mqttPerformanceData (d : SummaryData) (timestamp testDate : String) :
    MqttPerformanceData :=
  let httpReqs : ℚ := d.http_reqs_count.getD 0
  let httpReqFailed : ℚ := d.http_req_failed_count.getD 0
  { testInfo :=
      { timestamp := timestamp
        testDate := testDate
        duration := d.testRunDurationMs / 1000
        iterations := d.iterations_count.getD 0
        maxVus := d.vus_max.getD 0
        totalRequests := httpReqs
        successfulRequests := httpReqs - httpReqFailed
        failedRequests := httpReqFailed
        successRate := if 0 < httpReqs then ((httpReqs - httpReqFailed) / httpReqs) * 100 else 0 }
    metrics :=
      { responseTime :=
          { avg := d.http_req_duration_avg.getD 0
            rtMin := d.http_req_duration_min.getD 0
            rtMax := d.http_req_duration_max.getD 0
            p50 := d.http_req_duration_p50.getD 0
            p90 := d.http_req_duration_p90.getD 0
            p95 := d.http_req_duration_p95.getD 0
            p99 := d.http_req_duration_p99.getD 0 }
        dataReceivedKB := d.data_received_count.map (fun x => x / 1024)
        dataSentKB := d.data_sent_count.map (fun x => x / 1024)
        errorRatePct :=
          if httpReqs = 0 then none else some ((httpReqFailed / httpReqs) * 100)
        errorCount := httpReqFailed }
    thresholds :=
      { p95_under_1000ms :=
          match d.http_req_duration_p95 with
          | some v => decide (v < 1000)
          | none => false
        p99_under_2000ms :=
          match d.http_req_duration_p99 with
          | some v => decide (v < 2000)
          | none => false
        error_rate_under_10pct :=
          if httpReqs = 0 then false
          else decide (httpReqFailed / httpReqs < 10/100) } }

/-- Modelled from the spec: the k6 threshold evaluator's verdict on the
declared spec `mqtt_publish_response_time: ['p(95)<1000', 'p(99)<2000']`
(`src/k6-mqtt-pub-test.js` lines 19-21). The evaluator itself is part of the
k6 engine, not of this repository; per spec §4.4 a threshold is a comparator
applied to the aggregated metric and a spec whose metric is absent from the
snapshot fails closed. -/
def declaredMqttP95Pass (d : SummaryData) : Bool :=
  match d.mqtt_publish_response_time_p95 with
  | some v => decide (v < 1000)
  | none => false

/-- Modelled from the spec: the declared `p(99)<2000` threshold on
`mqtt_publish_response_time`, as `declaredMqttP95Pass`. -/
def declaredMqttP99Pass (d : SummaryData) : Bool :=
  match d.mqtt_publish_response_time_p99 with
  | some v => decide (v < 2000)
  | none => false

/-- A summary snapshot on which the server-side `http_req_duration` timings and
the client-side `mqtt_publish_response_time` Trend disagree: p95 of 500 vs
1500 ms, p99 of 800 vs 2500 ms. -/
def splitMetricsData : SummaryData :=
  { http_reqs_count := some 100
    http_req_failed_count := some 0
    http_req_duration_avg := some 400
    http_req_duration_min := some 100
    http_req_duration_max := some 900
    http_req_duration_p50 := some 350
    http_req_duration_p90 := some 450
    http_req_duration_p95 := some 500
    http_req_duration_p99 := some 800
    data_received_count := some 2048
    data_sent_count := some 1024
    iterations_count := some 100
    vus_max := some 20
    testRunDurationMs := 50000
    mqtt_publish_response_time_p95 := some 1500
    mqtt_publish_response_time_p99 := some 2500 }

/-- C5 counterexample: the pass/fail booleans in the report's thresholds block
are computed from `http_req_duration`, not from the metric of the declared k6
thresholds (`mqtt_publish_response_time`): on `splitMetricsData` the report
block says PASS for p95 and p99 while the declared thresholds evaluate to
not-passed, so the compared values do not come from the declared metric. -/
theorem mqtt_thresholds_not_declared_metric :
    (mqttPerformanceData splitMetricsData "ts" "td").thresholds.p95_under_1000ms = true ∧
    (mqttPerformanceData splitMetricsData "ts" "td").thresholds.p99_under_2000ms = true ∧
    declaredMqttP95Pass splitMetricsData = false ∧
    declaredMqttP99Pass splitMetricsData = false ∧
    (mqttPerformanceData splitMetricsData "ts" "td").metrics.responseTime.p95 ≠
      splitMetricsData.mqtt_publish_response_time_p95.getD 0 := by
  refine ⟨?_, ?_, ?_, ?_, ?_⟩ <;>
    norm_num [mqttPerformanceData, declaredMqttP95Pass, declaredMqttP99Pass, splitMetricsData]

/-- C5 (amended): the p95/p99 the thresholds block compares and the p95/p99 the
report displays are the same values, read from the same `http_req_duration`
snapshot fields — but that is the `http_req_duration` metric, not the declared
threshold metric `mqtt_publish_response_time`. -/
theorem mqtt_report_threshold_same_snapshot :
    ∀ (d : SummaryData) (ts td : String) (v95 v99 : ℚ),
      d.http_req_duration_p95 = some v95 →
      d.http_req_duration_p99 = some v99 →
      (mqttPerformanceData d ts td).metrics.responseTime.p95 = v95 ∧
      (mqttPerformanceData d ts td).metrics.responseTime.p99 = v99 ∧
      ((mqttPerformanceData d ts td).thresholds.p95_under_1000ms = true ↔ v95 < 1000) ∧
      ((mqttPerformanceData d ts td).thresholds.p99_under_2000ms = true ↔ v99 < 2000) := by
  intro d ts td v95 v99 h95 h99
  refine ⟨?_, ?_, ?_, ?_⟩ <;> simp [mqttPerformanceData, h95, h99]

/-- C5 witness: the amended consistency at the concrete split-metrics snapshot. -/
theorem mqtt_report_threshold_same_snapshot_witness :
    (mqttPerformanceData splitMetricsData "ts" "td").metrics.responseTime.p95 = 500 ∧
    ((mqttPerformanceData splitMetricsData "ts" "td").thresholds.p95_under_1000ms = true ↔
      (500 : ℚ) < 1000) :=
  ⟨(mqtt_report_threshold_same_snapshot splitMetricsData "ts" "td" 500 800 rfl rfl).1,
    (mqtt_report_threshold_same_snapshot splitMetricsData "ts" "td" 500 800 rfl rfl).2.2.1⟩

/-- C6: a threshold referencing an absent metric fails closed: with
`http_req_duration` percentiles missing the p95/p99 threshold booleans are
false, and with no recorded requests (`http_reqs` count absent or zero, so the
error-rate division is not a number) the error-rate threshold boolean is
false — never passed, never skipped (the thresholds record always carries all
three verdicts). -/
theorem mqtt_thresholds_fail_closed :
    ∀ (d : SummaryData) (ts td : String),
      (d.http_req_duration_p95 = none →
        (mqttPerformanceData d ts td).thresholds.p95_under_1000ms = false) ∧
      (d.http_req_duration_p99 = none →
        (mqttPerformanceData d ts td).thresholds.p99_under_2000ms = false) ∧
      (d.http_reqs_count.getD 0 = 0 →
        (mqttPerformanceData d ts td).thresholds.error_rate_under_10pct = false) := by
  intro d ts td
  refine ⟨?_, ?_, ?_⟩ <;> intro h <;> simp [mqttPerformanceData, h]

/-- An entirely empty summary snapshot: zero iterations, no metrics. -/
def emptySummaryData : SummaryData :=
  { http_reqs_count := none
    http_req_failed_count := none
    http_req_duration_avg := none
    http_req_duration_min := none
    http_req_duration_max := none
    http_req_duration_p50 := none
    http_req_duration_p90 := none
    http_req_duration_p95 := none
    http_req_duration_p99 := none
    data_received_count := none
    data_sent_count := none
    iterations_count := none
    vus_max := none
    testRunDurationMs := 0
    mqtt_publish_response_time_p95 := none
    mqtt_publish_response_time_p99 := none }

/-- C6 witness: on the empty snapshot all three threshold verdicts are false. -/
theorem mqtt_thresholds_fail_closed_witness :
    (mqttPerformanceData emptySummaryData "ts" "td").thresholds.p95_under_1000ms = false ∧
    (mqttPerformanceData emptySummaryData "ts" "td").thresholds.p99_under_2000ms = false ∧
    (mqttPerformanceData emptySummaryData "ts" "td").thresholds.error_rate_under_10pct = false :=
  ⟨(mqtt_thresholds_fail_closed emptySummaryData "ts" "td").1 rfl,
    (mqtt_thresholds_fail_closed emptySummaryData "ts" "td").2.1 rfl,
    (mqtt_thresholds_fail_closed emptySummaryData "ts" "td").2.2 rfl⟩

/-- C7: report synthesis is a pure function of the test-run result — two
invocations of either `handleSummary` on the same summary data and coverage
state yield identical metric values in every artifact; only the wall-clock
timestamp strings can differ between the invocations. -/
theorem handleSummary_deterministic :
    ∀ (st : CovState) (d : PerfSummaryData) (n1 n2 : String)
      (md : SummaryData) (ts1 ts2 td1 td2 : String),
      (handleSummary st d n1).endpointCoverage = (handleSummary st d n2).endpointCoverage ∧
      (handleSummary st d n1).summary = (handleSummary st d n2).summary ∧
      (handleSummary st d n1).testInfo.duration = (handleSummary st d n2).testInfo.duration ∧
      (handleSummary st d n1).testInfo.iterations = (handleSummary st d n2).testInfo.iterations ∧
      (handleSummary st d n1).testInfo.vus = (handleSummary st d n2).testInfo.vus ∧
      (mqttPerformanceData md ts1 td1).metrics = (mqttPerformanceData md ts2 td2).metrics ∧
      (mqttPerformanceData md ts1 td1).thresholds =
        (mqttPerformanceData md ts2 td2).thresholds ∧
      (mqttPerformanceData md ts1 td1).testInfo.totalRequests =
        (mqttPerformanceData md ts2 td2).testInfo.totalRequests ∧
      (mqttPerformanceData md ts1 td1).testInfo.successRate =
        (mqttPerformanceData md ts2 td2).testInfo.successRate ∧
      (mqttPerformanceData md ts1 td1).testInfo.duration =
        (mqttPerformanceData md ts2 td2).testInfo.duration := by
  intro st d n1 n2 md ts1 ts2 td1 td2
  exact ⟨rfl, rfl, rfl, rfl, rfl, rfl, rfl, rfl, rfl, rfl⟩

end RustApiPerf
